import Mathlib

/-!
Verification of the authentication and request-governance core of the
fastapi-starter repository, as a shallow embedding in Lean 4.

Embedded modules:
  app/utils/security.py   (token service, current-user resolution, local auth)
  app/utils/ldap.py       (directory authentication adapter)
  app/api/v1/endpoints/auth.py  (login and refresh flows)
  app/core/middleware.py  (sliding-window rate limit governor)

Conventions of the embedding:
  - Wall-clock instants and timedeltas are integers counting seconds.
  - The Python None-or-str values are Option String; Python truthiness of
    such a value (None and the empty string are falsy) is the pyTruthy
    predicate below.
  - The external jose JWT library is modelled by the Jwt type: a token is
    either a malformed string or a signed payload carrying a signature byte
    list; macSign stands for the symmetric MAC over secret and payload.
    jwt.decode checks the signature and the exp claim (rejecting when the
    expiry instant lies strictly before the clock, as jose does) and raises
    JWTError, modelled as the none result, on any failure.
  - The external ldap3 library is modelled by a Directory oracle recording
    the outcomes of server construction, binds and searches.
-/

namespace FastapiStarter

/-- Python truthiness of a None-or-str value: None and the empty string are
falsy, every other string is truthy. -/
def pyTruthy : Option String → Bool
  | none => false
  | some s => s ≠ ""

/-- Python `x or d` for a None-or-str x and a string default d. -/
def pyOr (x : Option String) (d : String) : String :=
  match x with
  | none => d
  | some s => if s = "" then d else s

/-- Python str() applied to a None-or-str value, as used in
get_current_user: str(None) is the four-letter string None. -/
def pyStr : Option String → String
  | none => "None"
  | some s => s

/-- Membership of a single character in a string, the meaning of the
Python in operator with a one-character needle; spelled over the character
list so it is kernel-computable. -/
def strHasChar (s : String) (c : Char) : Bool := s.toList.contains c

/-! ## Token service: app/utils/security.py -/

/-- Claims carried by a JWT as produced by this code base: the sub entry
(absent when the encoded dict had none), the type entry, and the exp entry
set by create_access_token and create_refresh_token. -/
structure JwtPayload where
  sub : Option String
  typ : Option String
  exp : Int
deriving DecidableEq, Repr

/-- Byte encoding of a None-or-str value: a tag byte and the code points. -/
def optStrBytes : Option String → List Nat
  | none => [0]
  | some s => 1 :: s.toList.map Char.toNat

/-- Rendering of a payload as bytes, input to the modelled MAC. -/
def payloadBytes (p : JwtPayload) : List Nat :=
  optStrBytes p.sub ++ optStrBytes p.typ ++ [p.exp.toNat, (-p.exp).toNat]

/-- Model of the symmetric MAC (HMAC in the jose library) over the secret
key and the payload. The theorems below depend only on the fact that
verification compares the token signature against the recomputed MAC,
never on the shape of this function. -/
def macSign (secret : String) (p : JwtPayload) : List Nat :=
  (secret.toList.map Char.toNat) ++ payloadBytes p

/-- Wire form of a token: an unparseable string, or a payload together with
its signature bytes. -/
inductive Jwt where
  | malformed (raw : String)
  | signed (payload : JwtPayload) (sig : List Nat)
deriving DecidableEq, Repr

/-- Model of jose jwt.decode with the shared secret at clock instant now:
signature check, then expiry check (jose rejects when exp < now); any
failure raises JWTError, modelled as none. -/
def jwtDecode (secret : String) (now : Int) : Jwt → Option JwtPayload
  | .malformed _ => none
  | .signed p sig =>
      if sig ≠ macSign secret p then none
      else if p.exp < now then none
      else some p

/-- TokenData schema from app/schemas/auth.py. -/
structure TokenData where
  email : Option String
deriving DecidableEq, Repr

/-- Token-relevant configuration fields of Settings (app/core/config.py).
ACCESS_TOKEN_EXPIRE_MINUTES and REFRESH_TOKEN_EXPIRE_DAYS keep their
source units; conversions to seconds happen where the source builds a
timedelta from them. -/
structure TokenSettings where
  SECRET_KEY : String
  ACCESS_TOKEN_EXPIRE_MINUTES : Int
  REFRESH_TOKEN_EXPIRE_DAYS : Int
deriving DecidableEq, Repr

/-- create_access_token of app/utils/security.py. Every call site passes a
dict of the single shape data = (sub entry), so data is embedded as its sub
entry; expires_delta is an optional timedelta in seconds. The function
copies data, sets exp to now plus the delta (default from settings, in
minutes) and type to access, and signs with the server secret. -/
def create_access_token (settings : TokenSettings) (now : Int)
    (dataSub : Option String) (expires_delta : Option Int) : Jwt :=
  let expire : Int :=
    match expires_delta with
    | some d => now + d
    | none => now + settings.ACCESS_TOKEN_EXPIRE_MINUTES * 60
  let p : JwtPayload := ⟨dataSub, some "access", expire⟩
  .signed p (macSign settings.SECRET_KEY p)

/-- create_refresh_token of app/utils/security.py: as create_access_token
but with type refresh and a default delta in days. -/
def create_refresh_token (settings : TokenSettings) (now : Int)
    (dataSub : Option String) (expires_delta : Option Int) : Jwt :=
  let expire : Int :=
    match expires_delta with
    | some d => now + d
    | none => now + settings.REFRESH_TOKEN_EXPIRE_DAYS * 86400
  let p : JwtPayload := ⟨dataSub, some "refresh", expire⟩
  .signed p (macSign settings.SECRET_KEY p)

/-- verify_token of app/utils/security.py. The token_type parameter
defaults to access in the source; the embedding passes it explicitly.
Decodes the token (any JWTError yields None), reads the sub and type
entries, and rejects unless sub is a string and type equals the expected
kind; TokenData carries the sub as email. -/
def verify_token (secret : String) (now : Int) (token : Jwt)
    (token_type : String) : Option TokenData :=
  match jwtDecode secret now token with
  | none => none
  | some payload =>
      match payload.sub with
      | none => none
      | some email =>
          if payload.typ ≠ some token_type then none
          else some ⟨some email⟩

/-! ## User schema and current-user resolution: app/schemas/user.py,
app/utils/security.py -/

/-- Model of the EmailStr validation that pydantic applies to User.email
through the external email-validator library: the address must contain
exactly one at sign separating a nonempty local part from a nonempty
domain that contains a period not at either edge (the library rejects a
dotless domain with the message that it should have a period). The
theorems touch this predicate only at addresses on which it agrees with
the library. -/
def isValidEmail (s : String) : Bool :=
  let cs := s.toList
  let localPart := cs.takeWhile (fun c => c ≠ '@')
  match cs.dropWhile (fun c => c ≠ '@') with
  | [] => false
  | _ :: domain =>
      !localPart.isEmpty && !domain.contains '@' && !domain.isEmpty &&
      domain.contains '.' && !(domain.head? = some '.' : Bool) &&
      !(domain.getLast? = some '.' : Bool)

/-- User schema (app/schemas/user.py, class User). created_at and
updated_at are instants in seconds. The email field is EmailStr in the
source: pydantic validates it when a User is constructed, which the
embedding models by the isValidEmail guard at each construction site
whose email is not a fixed valid literal (get_current_user below);
authenticate_user only ever constructs the fixed valid test address. -/
structure User where
  id : Int
  email : String
  full_name : String
  is_active : Bool
  is_superuser : Bool
  created_at : Int
  updated_at : Option Int
deriving DecidableEq, Repr

/-- Failure modes of the current-user dependency: the 401 credentials
exception, or the pydantic ValidationError raised while constructing the
User when its email does not pass the EmailStr check. -/
inductive AuthFailure where
  | unauthorized
  | validationError (email : String)
deriving DecidableEq, Repr

/-- get_current_user of app/utils/security.py: verifies the bearer token
with the default expected kind access; on failure raises the 401
credentials exception; on success builds the mock user, whose email is
the token sub when it contains an at sign and the fixed test address
otherwise; constructing the User raises ValidationError when that email
fails the EmailStr check. -/
def get_current_user (secret : String) (now : Int) (token : Jwt) :
    Except AuthFailure User :=
  match verify_token secret now token "access" with
  | none => .error .unauthorized
  | some token_data =>
      let valid_email :=
        if strHasChar (pyStr token_data.email) '@' then pyStr token_data.email
        else "test@example.com"
      if isValidEmail valid_email then
        .ok ⟨1, valid_email, "Mock User", true, true, now, some now⟩
      else .error (.validationError valid_email)

/-- authenticate_user of app/utils/security.py: the local credential
check, a mock accepting exactly the fixed test pair (the User it builds
carries the fixed valid address, so its construction cannot raise). -/
def authenticate_user (now : Int) (email password : String) : Option User :=
  if email = "test@example.com" ∧ password = "testpassword" then
    some ⟨1, email, "Test User", true, true, now, some now⟩
  else none

/-! ## Directory authentication adapter: app/utils/ldap.py

The ldap3 library is replaced by a Directory oracle giving the outcome of
each network operation. Exceptions raised inside the try block of
authenticate_ldap_user are modelled by an Except layer whose error type
distinguishes the three handler-relevant classes: LDAPBindError,
other ldap3 LDAPException, and every remaining Exception (this last class
covers the custom LDAPConnectionError raised by create_ldap_server and the
custom LDAPAuthenticationError raised for an incomplete configuration,
both of which the final generic handler re-wraps). -/

/-- Directory configuration fields read by app/utils/ldap.py. The Settings
class in app/core/config.py declares all of them except LDAP_DOMAIN, which
the adapter nevertheless reads; the embedding includes it as the adapter
expects it. -/
structure LdapSettings where
  LDAP_ENABLED : Bool
  LDAP_SERVER : Option String
  LDAP_BIND_DN : Option String
  LDAP_BIND_PASSWORD : Option String
  LDAP_BASE_DN : Option String
  LDAP_USER_FILTER : String
  LDAP_DOMAIN : Option String
deriving DecidableEq, Repr

/-- Directory entry as the adapter reads it: its distinguished name and the
values of the two mapped attributes; none models an absent or falsy
attribute value. -/
structure LdapEntry where
  entry_dn : String
  emailAttr : Option String
  fullnameAttr : Option String
deriving DecidableEq, Repr

/-- Oracle for the ldap3 operations: server construction, the service
account bind used before a search, user binds by name and password, and
searches by base and filter (connections performing user binds are created
with raise_exceptions False, so their bind returns a Bool and their search
returns an entry list). -/
structure Directory where
  serverOk : Bool
  serviceBindOk : Bool
  bind : String → String → Bool
  search : String → String → List LdapEntry

/-- Exception classes distinguished by the handlers of
authenticate_ldap_user. -/
inductive LdapExc where
  | bindExc (msg : String)
  | ldapExc (msg : String)
  | otherExc (msg : String)
deriving DecidableEq, Repr

/-- Outcome of authenticate_ldap_user as seen by its caller: the user-info
dict, the None result, or one of the two custom exception types. -/
inductive AuthOutcome where
  | resolved (email full_name username : String)
  | rejected
  | authErr (msg : String)
  | connErr (msg : String)
deriving DecidableEq, Repr

/-- Substitution of the username placeholder in LDAP_USER_FILTER, as the
Python str.format call performs it. -/
def formatFilter (template username : String) : String :=
  template.replace "{username}" username

/-- create_ldap_server of app/utils/ldap.py: fails when LDAP_SERVER is
falsy (raising the custom LDAPConnectionError, a plain Exception to the
callers handlers) or when server construction fails (same wrapping). -/
def create_ldap_server (dir : Directory) (settings : LdapSettings) :
    Except LdapExc Unit :=
  if ¬ pyTruthy settings.LDAP_SERVER then
    .error (.otherExc "LDAP_SERVER is not configured")
  else if ¬ dir.serverOk then
    .error (.otherExc "Failed to create LDAP server")
  else .ok ()

/-- The user-info dict built by _search_ldap_user from the first entry. -/
def searchUserInfo (username : String) (entry : LdapEntry) :
    String × String × String :=
  (pyOr entry.emailAttr (username ++ "@unknown"),
   pyOr entry.fullnameAttr username, username)

/-- _search_ldap_user of app/utils/ldap.py: binds the service account
(auto_bind raises LDAPBindError on failure, for the credentialed and the
anonymous form alike), searches under LDAP_BASE_DN (empty string when
unset) with the formatted filter, and returns the first entry dn with the
attribute dict, or none when no entry matched. -/
def searchLdapUser (dir : Directory) (settings : LdapSettings)
    (username : String) :
    Except LdapExc (Option (String × String × String × String)) :=
  if ¬ dir.serviceBindOk then
    .error (.bindExc "automatic bind not successful")
  else
    let base := pyOr settings.LDAP_BASE_DN ""
    match dir.search base (formatFilter settings.LDAP_USER_FILTER username) with
    | [] => .ok none
    | entry :: _ =>
        let info := searchUserInfo username entry
        .ok (some (entry.entry_dn, info.1, info.2.1, info.2.2))

/-- _authenticate_upn of app/utils/ldap.py: bind directly as
username at domain; on bind failure return None; on success, when
LDAP_BASE_DN is truthy, search for the entry and read the mapped
attributes with the synthesized fallbacks, and when the search yields
nothing or LDAP_BASE_DN is falsy, return the synthesized info. -/
def authenticateUpn (dir : Directory) (settings : LdapSettings)
    (username password : String) :
    Except LdapExc (Option (String × String × String)) :=
  let domain := pyOr settings.LDAP_DOMAIN ""
  let upn := username ++ "@" ++ domain
  if ¬ dir.bind upn password then .ok none
  else
    let fromSearch : Option (String × String × String) :=
      if pyTruthy settings.LDAP_BASE_DN then
        match dir.search (pyOr settings.LDAP_BASE_DN "")
            (formatFilter settings.LDAP_USER_FILTER username) with
        | [] => none
        | entry :: _ =>
            some (pyOr entry.emailAttr (username ++ "@" ++ domain),
                  pyOr entry.fullnameAttr username, username)
      else none
    match fromSearch with
    | some info => .ok (some info)
    | none => .ok (some (username ++ "@" ++ domain, username, username))

/-- _authenticate_search_bind of app/utils/ldap.py: search for the user,
return None when no entry matched; otherwise bind with the entry dn and
the supplied password, returning None on bind failure and the already
fetched info on success. -/
def authenticateSearchBind (dir : Directory) (settings : LdapSettings)
    (username password : String) :
    Except LdapExc (Option (String × String × String)) :=
  match searchLdapUser dir settings username with
  | .error e => .error e
  | .ok none => .ok none
  | .ok (some (user_dn, email, full_name, uname)) =>
      if ¬ dir.bind user_dn password then .ok none
      else .ok (some (email, full_name, uname))

/-- Body of the try block of authenticate_ldap_user: create the server,
then dispatch on the configuration shape; an incomplete configuration
raises the custom LDAPAuthenticationError, which the generic handler of
the caller re-wraps, hence the otherExc class here. -/
def authenticateLdapTry (dir : Directory) (settings : LdapSettings)
    (username password : String) :
    Except LdapExc (Option (String × String × String)) :=
  match create_ldap_server dir settings with
  | .error e => .error e
  | .ok _ =>
      if pyTruthy settings.LDAP_DOMAIN then
        authenticateUpn dir settings username password
      else if pyTruthy settings.LDAP_BASE_DN then
        authenticateSearchBind dir settings username password
      else
        .error (.otherExc
          "LDAP configuration incomplete: set either LDAP_DOMAIN or LDAP_BASE_DN")

/-- authenticate_ldap_user of app/utils/ldap.py: guards for the enabled
flag and empty credentials, then the try block with its three handlers
(LDAPBindError to LDAPAuthenticationError, LDAPException to
LDAPConnectionError, any other Exception to LDAPAuthenticationError). -/
def authenticate_ldap_user (dir : Directory) (settings : LdapSettings)
    (username password : String) : AuthOutcome :=
  if ¬ settings.LDAP_ENABLED then
    .authErr "LDAP authentication is not enabled"
  else if username = "" ∨ password = "" then .rejected
  else
    match authenticateLdapTry dir settings username password with
    | .ok (some (email, full_name, uname)) => .resolved email full_name uname
    | .ok none => .rejected
    | .error (.bindExc m) => .authErr ("LDAP bind failed: " ++ m)
    | .error (.ldapExc m) => .connErr ("LDAP error: " ++ m)
    | .error (.otherExc m) => .authErr ("Authentication error: " ++ m)

/-! ## Authentication endpoints: app/api/v1/endpoints/auth.py -/

/-- Combined application settings as the endpoints read them: the token
fields and the directory fields of Settings. -/
structure Settings where
  tok : TokenSettings
  ldap : LdapSettings
deriving DecidableEq, Repr

/-- Token response schema from app/schemas/auth.py. -/
structure Token where
  access_token : Jwt
  refresh_token : Jwt
  token_type : String
deriving DecidableEq, Repr

/-- Token pair minted by the login and refresh handlers for a subject:
access token with the configured minute delta, refresh token with the
configured day delta, token type bearer. -/
def mintPair (settings : Settings) (now : Int) (sub : String) : Token :=
  let access_token_expires := settings.tok.ACCESS_TOKEN_EXPIRE_MINUTES * 60
  let refresh_token_expires := settings.tok.REFRESH_TOKEN_EXPIRE_DAYS * 86400
  ⟨create_access_token settings.tok now (some sub) (some access_token_expires),
   create_refresh_token settings.tok now (some sub) (some refresh_token_expires),
   "bearer"⟩

/-- login of app/api/v1/endpoints/auth.py. When LDAP is enabled the
directory adapter runs first: a resolved identity is issued tokens bound
to its email; a None result falls through; both custom exception types
are caught and fall through. The local branch of the source contains only
a commented-out credential check and unconditionally mints tokens bound to
the supplied username, so the embedded function is total and never fails. -/
def login (dir : Directory) (settings : Settings)
    (username password : String) (now : Int) : Token :=
  if settings.ldap.LDAP_ENABLED then
    match authenticate_ldap_user dir settings.ldap username password with
    | .resolved email _ _ => mintPair settings now email
    | .rejected => mintPair settings now username
    | .authErr _ => mintPair settings now username
    | .connErr _ => mintPair settings now username
  else mintPair settings now username

/-- refresh_token endpoint of app/api/v1/endpoints/auth.py: the bearer
token is resolved through the get_current_user dependency (which verifies
with the default expected kind access), and a fresh pair is minted for the
resolved email; the 401 of the dependency propagates as the error case. -/
def refreshFlow (settings : Settings) (bearer : Jwt) (now : Int) :
    Except AuthFailure Token :=
  match get_current_user settings.tok.SECRET_KEY now bearer with
  | .error e => .error e
  | .ok current_user => .ok (mintPair settings now current_user.email)

/-! ## Request governor: app/core/middleware.py, RateLimitMiddleware -/

/-- Constructor arguments of RateLimitMiddleware: capacity and window
length in seconds. -/
structure RateLimitConfig where
  calls : Nat
  period : Int
deriving DecidableEq, Repr

/-- Outcome of one dispatch call for a given client: bypass on an exempt
path, a 429 JSON rejection carrying only the detail string, or admission
carrying the three rate-limit headers added to the downstream response. -/
inductive GovOutcome where
  | bypass
  | rejected (status : Nat) (detail : String)
  | admitted (limitHdr remainingHdr resetHdr : String)
deriving DecidableEq, Repr

/-- Detail string of the 429 rejection body built by dispatch. -/
def rateLimitDetail (calls : Nat) (period : Int) : String :=
  "Rate limit exceeded. Maximum " ++ toString calls ++ " requests per "
    ++ toString period ++ " seconds."

/-- dispatch of RateLimitMiddleware, projected to one client key (the
middleware state touches only the entry of the requesting client): exempt
paths bypass; otherwise timestamps older than now minus the period are
purged, the request is rejected when the remaining count reaches the
capacity, and otherwise now is appended and the request admitted with the
limit, remaining and reset headers. Returns the outcome and the updated
window stored for the client. -/
def rateLimitDispatch (cfg : RateLimitConfig) (path : String)
    (window : List Int) (now : Int) : GovOutcome × List Int :=
  if path = "/health" ∨ path = "/api/v1/health" then (.bypass, window)
  else
    let purged := window.filter (fun ts => now - ts < cfg.period)
    if cfg.calls ≤ purged.length then
      (.rejected 429 (rateLimitDetail cfg.calls cfg.period), purged)
    else
      let w2 := purged ++ [now]
      let remaining := cfg.calls - w2.length
      (.admitted (toString cfg.calls) (toString remaining)
        (toString (now + cfg.period)), w2)

/-- View of an outcome as an admission flag. -/
def GovOutcome.isAdmitted : GovOutcome → Bool
  | .admitted _ _ _ => true
  | _ => false

/-- Sequential run of the governor over a list of request instants for one
client, threading the stored window; yields the outcome list and the final
window. -/
def runGov (cfg : RateLimitConfig) (path : String) :
    List Int → List Int → List GovOutcome × List Int
  | window, [] => ([], window)
  | window, t :: ts =>
      let step := rateLimitDispatch cfg path window t
      let rest := runGov cfg path step.2 ts
      (step.1 :: rest.1, rest.2)

/-! ## Demonstration fixtures used by concrete witnesses -/

/-- Token settings fixture. -/
def demoTokenSettings : TokenSettings := ⟨"k", 30, 7⟩

/-- Directory oracle fixture in which every search is empty and every bind
fails. -/
def demoDirNoUser : Directory :=
  ⟨true, true, fun _ _ => false, fun _ _ => []⟩

/-- Search-then-bind directory settings fixture. -/
def demoSearchSettings : LdapSettings :=
  ⟨true, some "ldap://dir.example.com", none, none,
   some "ou=users,dc=example,dc=com", "(uid={username})", none⟩

/-- Combined settings fixture. -/
def demoSettings : Settings := ⟨demoTokenSettings, demoSearchSettings⟩

/-- Payload fixture. -/
def demoPayload : JwtPayload := ⟨some "s@x", some "access", 10⟩

/-! ## Helper lemmas -/

/-- Updating a list at an in-range index with a value different from the
one stored there changes the list. -/
lemma set_ne_of_getElem_ne {l : List Nat} {i : Nat} (hi : i < l.length)
    {b : Nat} (hb : b ≠ l.get ⟨i, hi⟩) : l.set i b ≠ l := by
  intro he
  apply hb
  have h2 : (l.set i b).get ⟨i, by simpa using hi⟩ = l.get ⟨i, hi⟩ := by
    simp [he]
  simpa using h2

/-- Directory settings fixture with neither a domain suffix nor a base
search scope. -/
def misconfigSettings : LdapSettings :=
  ⟨true, some "ldap://dir.example.com", none, none, none, "(uid={username})",
   none⟩

/-- UPN directory settings fixture: domain configured, no base scope. -/
def upnSettings : LdapSettings :=
  ⟨true, some "ldap://dir.example.com", none, none, none, "(uid={username})",
   some "corp.local"⟩

/-- Directory oracle fixture accepting exactly the alice UPN bind. -/
def demoDirUpn : Directory :=
  ⟨true, true, fun u _ => u = "alice@corp.local", fun _ _ => []⟩

/-! ## Theorems settling the claims -/

/-- C2: verify_token yields the one generic failure value none for a
malformed token, a wrong signature, an expired token and a kind mismatch;
altering any single byte of the signature of a well-formed token makes
verification fail; and no two failures are distinguishable from the
returned value alone. -/
theorem verify_token_single_generic_failure (secret : String) (now : Int)
    (raw : String) (p : JwtPayload) (sig : List Nat) (kind : String) :
    verify_token secret now (.malformed raw) kind = none
    ∧ (sig ≠ macSign secret p →
        verify_token secret now (.signed p sig) kind = none)
    ∧ (p.exp < now →
        verify_token secret now (.signed p sig) kind = none)
    ∧ (p.typ ≠ some kind →
        verify_token secret now (.signed p sig) kind = none)
    ∧ (∀ i : Nat, ∀ hi : i < (macSign secret p).length, ∀ b : Nat,
        b ≠ (macSign secret p).get ⟨i, hi⟩ →
        verify_token secret now
          (.signed p ((macSign secret p).set i b)) kind = none)
    ∧ (∀ u v : Jwt, verify_token secret now u kind = none →
        verify_token secret now v kind = none →
        verify_token secret now u kind = verify_token secret now v kind) := by
  refine ⟨rfl, ?_, ?_, ?_, ?_, ?_⟩
  · intro h
    simp [verify_token, jwtDecode, h]
  · intro h
    by_cases hs : sig = macSign secret p
    · simp [verify_token, jwtDecode, hs, h]
    · simp [verify_token, jwtDecode, hs]
  · intro h
    by_cases hs : sig = macSign secret p
    · by_cases he : p.exp < now
      · simp [verify_token, jwtDecode, hs, he]
      · cases hsub : p.sub with
        | none => simp [verify_token, jwtDecode, hs, he, hsub]
        | some e => simp [verify_token, jwtDecode, hs, he, hsub, h]
    · simp [verify_token, jwtDecode, hs]
  · intro i hi b hb
    have hne : (macSign secret p).set i b ≠ macSign secret p :=
      set_ne_of_getElem_ne hi hb
    simp [verify_token, jwtDecode, hne]
  · intro u v hu hv
    rw [hu, hv]

/-- Witness for C2 at concrete inputs. -/
theorem verify_token_single_generic_failure_witness :
    verify_token "k" 0 (.malformed "garbage") "access" = none
    ∧ verify_token "k" 0 (.signed demoPayload []) "access" = none
    ∧ verify_token "k" 20 (.signed demoPayload (macSign "k" demoPayload))
        "access" = none
    ∧ verify_token "k" 0 (.signed demoPayload (macSign "k" demoPayload))
        "refresh" = none
    ∧ verify_token "k" 0
        (.signed demoPayload ((macSign "k" demoPayload).set 0 0)) "access"
        = none := by
  have h0 := verify_token_single_generic_failure "k" 0 "garbage" demoPayload
    [] "access"
  have h20 := verify_token_single_generic_failure "k" 20 "garbage" demoPayload
    (macSign "k" demoPayload) "access"
  have hr := verify_token_single_generic_failure "k" 0 "garbage" demoPayload
    (macSign "k" demoPayload) "refresh"
  refine ⟨h0.1, h0.2.1 (by decide), h20.2.2.1 (by decide),
    hr.2.2.2.1 (by decide), h0.2.2.2.2.1 0 (by decide) 0 (by decide)⟩

/-- C3: a freshly issued token of either kind, verified with the matching
expected kind before its ttl elapses, succeeds and returns the subject;
and an access token verified with expected kind refresh always fails. -/
theorem issue_verify_roundtrip (settings : TokenSettings) (now t : Int)
    (s : String) (ttl : Int) (_h1 : 0 < ttl) (h2 : t < now + ttl) :
    verify_token settings.SECRET_KEY t
        (create_access_token settings now (some s) (some ttl)) "access"
      = some ⟨some s⟩
    ∧ verify_token settings.SECRET_KEY t
        (create_refresh_token settings now (some s) (some ttl)) "refresh"
      = some ⟨some s⟩
    ∧ ∀ u : Int, verify_token settings.SECRET_KEY u
        (create_access_token settings now (some s) (some ttl)) "refresh"
      = none := by
  have he : ¬ (now + ttl < t) := by omega
  refine ⟨?_, ?_, ?_⟩
  · simp [verify_token, jwtDecode, create_access_token, he]
  · simp [verify_token, jwtDecode, create_refresh_token, he]
  · intro u
    by_cases hu : now + ttl < u
    · simp [verify_token, jwtDecode, create_access_token, hu]
    · simp [verify_token, jwtDecode, create_access_token, hu]

/-- Witness for C3 at concrete inputs. -/
theorem issue_verify_roundtrip_witness :
    verify_token "k" 5 (create_access_token demoTokenSettings 0
        (some "alice@x") (some 10)) "access" = some ⟨some "alice@x"⟩
    ∧ verify_token "k" 5 (create_refresh_token demoTokenSettings 0
        (some "alice@x") (some 10)) "refresh" = some ⟨some "alice@x"⟩
    ∧ verify_token "k" 5 (create_access_token demoTokenSettings 0
        (some "alice@x") (some 10)) "refresh" = none := by
  have h := issue_verify_roundtrip demoTokenSettings 0 5 "alice@x" 10
    (by decide) (by decide)
  exact ⟨h.1, h.2.1, h.2.2 5⟩

/-- Python or with a truthy left operand returns it. -/
lemma pyOr_some_ne {s : String} (h : s ≠ "") (d : String) :
    pyOr (some s) d = s := by
  simp [pyOr, h]

/-- Python or with a falsy left operand returns the default. -/
lemma pyOr_falsy {x : Option String} (h : pyTruthy x = false) (d : String) :
    pyOr x d = d := by
  cases x with
  | none => rfl
  | some s =>
      simp [pyTruthy] at h
      simp [pyOr, h]

/-- C10 counterexample: a concrete bearer token whose subject a@b passes
verification as an access token, yet get_current_user fails with the
ValidationError raised by the EmailStr check (the subject contains the at
sign but its domain has no period), refuting that the operation never
fails for a verified access token. -/
theorem get_current_user_invalid_subject_cex :
    verify_token "k" 5 (create_access_token demoTokenSettings 0
        (some "a@b") (some 10)) "access" = some ⟨some "a@b"⟩
    ∧ get_current_user "k" 5 (create_access_token demoTokenSettings 0
        (some "a@b") (some 10))
      = .error (.validationError "a@b") := by
  refine ⟨by decide, rfl⟩

/-- C10 amended: for every bearer token that verifies as an access token,
when the subject has no at sign the operation succeeds with the fixed
test address and both flags true; when the subject has an at sign and
passes the EmailStr check it succeeds with that subject as email and both
flags true; when the subject has an at sign but fails the EmailStr check
the User construction raises ValidationError and the operation fails. -/
theorem get_current_user_verified_token_cases (secret : String)
    (now : Int) (token : Jwt) (td : TokenData)
    (h : verify_token secret now token "access" = some td) :
    (strHasChar (pyStr td.email) '@' = false →
      get_current_user secret now token
        = .ok ⟨1, "test@example.com", "Mock User", true, true, now,
               some now⟩)
    ∧ (strHasChar (pyStr td.email) '@' = true →
        isValidEmail (pyStr td.email) = true →
        get_current_user secret now token
          = .ok ⟨1, pyStr td.email, "Mock User", true, true, now,
                 some now⟩)
    ∧ (strHasChar (pyStr td.email) '@' = true →
        isValidEmail (pyStr td.email) = false →
        get_current_user secret now token
          = .error (.validationError (pyStr td.email))) := by
  refine ⟨?_, ?_, ?_⟩
  · intro hat
    simp [get_current_user, h, hat,
      (by decide : isValidEmail "test@example.com" = true)]
  · intro hat hval
    simp [get_current_user, h, hat, hval]
  · intro hat hval
    simp [get_current_user, h, hat, hval]

/-- Witness for the C10 amended theorem at a verified token carrying a
valid email subject. -/
theorem get_current_user_verified_token_cases_witness :
    get_current_user "k" 5 (create_access_token demoTokenSettings 0
        (some "alice@example.com") (some 10))
      = .ok ⟨1, "alice@example.com", "Mock User", true, true, 5, some 5⟩ :=
  (get_current_user_verified_token_cases "k" 5
    (create_access_token demoTokenSettings 0 (some "alice@example.com")
      (some 10))
    ⟨some "alice@example.com"⟩ (by decide)).2.1 (by decide) (by decide)

/-- C6 (code evaluated at the failing input): the refresh flow resolves
its bearer through get_current_user, which verifies with expected kind
access; a token minted by create_refresh_token, although it verifies as
kind refresh, is rejected by the refresh flow with the 401, while an
access token carrying the same valid-email subject, which does not verify
as kind refresh, is accepted and answered with a fresh pair. -/
theorem refresh_flow_validates_kind_access_not_refresh :
    verify_token "k" 5 (create_refresh_token demoTokenSettings 0
        (some "alice@example.com") (some 100)) "refresh"
      = some ⟨some "alice@example.com"⟩
    ∧ refreshFlow demoSettings (create_refresh_token demoTokenSettings 0
        (some "alice@example.com") (some 100)) 5 = .error .unauthorized
    ∧ verify_token "k" 5 (create_access_token demoTokenSettings 0
        (some "alice@example.com") (some 100)) "refresh" = none
    ∧ refreshFlow demoSettings (create_access_token demoTokenSettings 0
        (some "alice@example.com") (some 100)) 5
      = .ok (mintPair demoSettings 5 "alice@example.com") := by
  refine ⟨by decide, rfl, by decide, rfl⟩

/-- C1 (code evaluated at the failing input): with the directory enabled
and falling through (the adapter rejects the user) and the local
credential check failing on the supplied pair, login still returns a
credential pair bound to the supplied username instead of an
InvalidCredentials failure; the commented-out local check in the source
never runs. -/
theorem login_returns_pair_despite_failed_local_credentials :
    authenticate_user 0 "eve" "wrongpass" = none
    ∧ authenticate_ldap_user demoDirNoUser demoSearchSettings "eve"
        "wrongpass" = .rejected
    ∧ login demoDirNoUser demoSettings "eve" "wrongpass" 0
      = mintPair demoSettings 0 "eve"
    ∧ verify_token "k" 0
        (login demoDirNoUser demoSettings "eve" "wrongpass" 0).access_token
        "access" = some ⟨some "eve"⟩ := by
  refine ⟨by decide, by decide, by decide, by decide⟩

/-- C7 counterexample: with the directory enabled and neither a domain
suffix nor a base search scope configured, a concrete login-time call of
the adapter yields a per-call LDAPAuthenticationError outcome, and the
login call itself still runs (falling back to local token minting), so the
misconfiguration is not a startup-time fatal error. -/
theorem ldap_misconfig_is_per_call_cex :
    authenticate_ldap_user demoDirNoUser misconfigSettings "alice" "pw"
      = .authErr
        "Authentication error: LDAP configuration incomplete: set either LDAP_DOMAIN or LDAP_BASE_DN"
    ∧ login demoDirNoUser ⟨demoTokenSettings, misconfigSettings⟩ "alice" "pw"
        0 = mintPair ⟨demoTokenSettings, misconfigSettings⟩ 0 "alice" := by
  exact ⟨by decide, by decide⟩

/-- C7 amended: whenever the directory is enabled, the credentials are
nonempty, the server is configured and constructible, and neither a domain
suffix nor a base search scope is truthy, authenticate_ldap_user raises
the per-call LDAPAuthenticationError wrapping the incomplete-configuration
message, and login swallows it, returning the local-branch pair for the
supplied username; no startup-time check exists. -/
theorem ldap_misconfig_per_call_amended (dir : Directory)
    (settings : LdapSettings) (username password : String)
    (tok : TokenSettings) (now : Int)
    (hen : settings.LDAP_ENABLED = true)
    (hu : username ≠ "") (hp : password ≠ "")
    (hsrv : pyTruthy settings.LDAP_SERVER = true)
    (hok : dir.serverOk = true)
    (hnd : pyTruthy settings.LDAP_DOMAIN = false)
    (hnb : pyTruthy settings.LDAP_BASE_DN = false) :
    authenticate_ldap_user dir settings username password
      = .authErr
        "Authentication error: LDAP configuration incomplete: set either LDAP_DOMAIN or LDAP_BASE_DN"
    ∧ login dir ⟨tok, settings⟩ username password now
      = mintPair ⟨tok, settings⟩ now username := by
  have h1 : authenticate_ldap_user dir settings username password
      = .authErr
        "Authentication error: LDAP configuration incomplete: set either LDAP_DOMAIN or LDAP_BASE_DN" := by
    simp [authenticate_ldap_user, authenticateLdapTry, create_ldap_server,
      hen, hu, hp, hsrv, hok, hnd, hnb]
  exact ⟨h1, by simp [login, hen, h1]⟩

/-- Witness for the C7 amended theorem at concrete inputs. -/
theorem ldap_misconfig_per_call_amended_witness :
    authenticate_ldap_user demoDirNoUser misconfigSettings "bob" "pw2"
      = .authErr
        "Authentication error: LDAP configuration incomplete: set either LDAP_DOMAIN or LDAP_BASE_DN"
    ∧ login demoDirNoUser ⟨demoTokenSettings, misconfigSettings⟩ "bob" "pw2"
        7 = mintPair ⟨demoTokenSettings, misconfigSettings⟩ 7 "bob" :=
  ldap_misconfig_per_call_amended demoDirNoUser misconfigSettings "bob"
    "pw2" demoTokenSettings 7 (by decide) (by decide) (by decide)
    (by decide) (by decide) (by decide) (by decide)

/-- C8: under the UPN strategy, a successful direct bind always yields a
resolved outcome for the supplied username, and whenever the attribute
lookup is disabled (no base scope), finds no entry, or finds an entry with
falsy mapped attributes, the resolved info carries the synthesized email
username at domain and full name equal to the username; a successful bind
is never undone by the lookup. -/
theorem upn_bind_resolves_with_synthesized_fallback (dir : Directory)
    (settings : LdapSettings) (username password d : String)
    (hen : settings.LDAP_ENABLED = true)
    (hu : username ≠ "") (hp : password ≠ "")
    (hsrv : pyTruthy settings.LDAP_SERVER = true)
    (hok : dir.serverOk = true)
    (hdom : settings.LDAP_DOMAIN = some d) (hd : d ≠ "")
    (hbind : dir.bind (username ++ "@" ++ d) password = true) :
    (∃ email full_name : String,
        authenticate_ldap_user dir settings username password
          = .resolved email full_name username)
    ∧ (pyTruthy settings.LDAP_BASE_DN = false →
        authenticate_ldap_user dir settings username password
          = .resolved (username ++ "@" ++ d) username username)
    ∧ (pyTruthy settings.LDAP_BASE_DN = true →
        dir.search (pyOr settings.LDAP_BASE_DN "")
            (formatFilter settings.LDAP_USER_FILTER username) = [] →
        authenticate_ldap_user dir settings username password
          = .resolved (username ++ "@" ++ d) username username)
    ∧ (∀ entry rest, pyTruthy settings.LDAP_BASE_DN = true →
        dir.search (pyOr settings.LDAP_BASE_DN "")
            (formatFilter settings.LDAP_USER_FILTER username)
          = entry :: rest →
        pyTruthy entry.emailAttr = false →
        pyTruthy entry.fullnameAttr = false →
        authenticate_ldap_user dir settings username password
          = .resolved (username ++ "@" ++ d) username username) := by
  have hdt : pyTruthy settings.LDAP_DOMAIN = true := by
    rw [hdom]; simp [pyTruthy, hd]
  have hdor : pyOr settings.LDAP_DOMAIN "" = d := by
    rw [hdom]; exact pyOr_some_ne hd ""
  refine ⟨?_, ?_, ?_, ?_⟩
  · by_cases hbase : pyTruthy settings.LDAP_BASE_DN = true
    · cases hsearch : dir.search (pyOr settings.LDAP_BASE_DN "")
          (formatFilter settings.LDAP_USER_FILTER username) with
      | nil =>
          refine ⟨username ++ "@" ++ d, username, ?_⟩
          simp [authenticate_ldap_user, authenticateLdapTry,
            create_ldap_server, authenticateUpn, hen, hu, hp, hsrv, hok,
            hdt, hdor, hbind, hbase, hsearch]
      | cons entry rest =>
          refine ⟨pyOr entry.emailAttr (username ++ "@" ++ d),
            pyOr entry.fullnameAttr username, ?_⟩
          simp [authenticate_ldap_user, authenticateLdapTry,
            create_ldap_server, authenticateUpn, hen, hu, hp, hsrv, hok,
            hdt, hdor, hbind, hbase, hsearch]
    · refine ⟨username ++ "@" ++ d, username, ?_⟩
      simp [authenticate_ldap_user, authenticateLdapTry, create_ldap_server,
        authenticateUpn, hen, hu, hp, hsrv, hok, hdt, hdor, hbind,
        Bool.of_not_eq_true hbase]
  · intro hbase
    simp [authenticate_ldap_user, authenticateLdapTry, create_ldap_server,
      authenticateUpn, hen, hu, hp, hsrv, hok, hdt, hdor, hbind, hbase]
  · intro hbase hsearch
    simp [authenticate_ldap_user, authenticateLdapTry, create_ldap_server,
      authenticateUpn, hen, hu, hp, hsrv, hok, hdt, hdor, hbind, hbase,
      hsearch]
  · intro entry rest hbase hsearch hea hfa
    simp [authenticate_ldap_user, authenticateLdapTry, create_ldap_server,
      authenticateUpn, hen, hu, hp, hsrv, hok, hdt, hdor, hbind, hbase,
      hsearch, pyOr_falsy hea, pyOr_falsy hfa]

/-- Witness for C8: the spec instance with domain corp.local, username
alice, a successful bind and the lookup disabled resolves to the
synthesized pair. -/
theorem upn_bind_resolves_with_synthesized_fallback_witness :
    authenticate_ldap_user demoDirUpn upnSettings "alice" "goodpw"
      = .resolved "alice@corp.local" "alice" "alice" := by
  have h := upn_bind_resolves_with_synthesized_fallback demoDirUpn
    upnSettings "alice" "goodpw" "corp.local" (by decide) (by decide)
    (by decide) (by decide) (by decide) (by decide) (by decide) (by decide)
  exact h.2.1 (by decide)

/-- C9: under the search-then-bind strategy, a search returning zero
entries makes the adapter return the negative rejected outcome, not an
error and not the unavailable outcome, and login then falls through to
the local branch, minting tokens for the supplied username. -/
theorem search_bind_no_entries_rejected (dir : Directory)
    (settings : LdapSettings) (username password : String)
    (tok : TokenSettings) (now : Int)
    (hen : settings.LDAP_ENABLED = true)
    (hu : username ≠ "") (hp : password ≠ "")
    (hsrv : pyTruthy settings.LDAP_SERVER = true)
    (hok : dir.serverOk = true)
    (hnd : pyTruthy settings.LDAP_DOMAIN = false)
    (hbase : pyTruthy settings.LDAP_BASE_DN = true)
    (hsb : dir.serviceBindOk = true)
    (hsearch : dir.search (pyOr settings.LDAP_BASE_DN "")
        (formatFilter settings.LDAP_USER_FILTER username) = []) :
    authenticate_ldap_user dir settings username password = .rejected
    ∧ login dir ⟨tok, settings⟩ username password now
      = mintPair ⟨tok, settings⟩ now username := by
  have h1 : authenticate_ldap_user dir settings username password
      = .rejected := by
    simp [authenticate_ldap_user, authenticateLdapTry, create_ldap_server,
      authenticateSearchBind, searchLdapUser, hen, hu, hp, hsrv, hok, hnd,
      hbase, hsb, hsearch]
  exact ⟨h1, by simp [login, hen, h1]⟩

/-- Witness for C9: the ghost user of the spec instance. -/
theorem search_bind_no_entries_rejected_witness :
    authenticate_ldap_user demoDirNoUser demoSearchSettings "ghost" "pw"
      = .rejected
    ∧ login demoDirNoUser ⟨demoTokenSettings, demoSearchSettings⟩ "ghost"
        "pw" 3
      = mintPair ⟨demoTokenSettings, demoSearchSettings⟩ 3 "ghost" :=
  search_bind_no_entries_rejected demoDirNoUser demoSearchSettings "ghost"
    "pw" demoTokenSettings 3 (by decide) (by decide) (by decide) (by decide)
    (by decide) (by decide) (by decide) (by decide) (by decide)

/-- Dispatch on a governed path admits when the purged window is below
capacity, and stores the purged window extended with the new instant. -/
lemma dispatch_admits (cfg : RateLimitConfig) (path : String)
    (w : List Int) (now : Int)
    (hnp : ¬ (path = "/health" ∨ path = "/api/v1/health"))
    (hlt : (w.filter (fun ts => now - ts < cfg.period)).length < cfg.calls) :
    (rateLimitDispatch cfg path w now).1.isAdmitted = true
    ∧ (rateLimitDispatch cfg path w now).2
      = w.filter (fun ts => now - ts < cfg.period) ++ [now] := by
  have hc : ¬ cfg.calls ≤ (w.filter (fun ts => now - ts < cfg.period)).length :=
    Nat.not_le.mpr hlt
  constructor <;> simp [rateLimitDispatch, hnp, hc, GovOutcome.isAdmitted]

/-- Dispatch on a governed path rejects with the 429 detail when the
purged window has reached capacity, and stores the purged window. -/
lemma dispatch_rejects (cfg : RateLimitConfig) (path : String)
    (w : List Int) (now : Int)
    (hnp : ¬ (path = "/health" ∨ path = "/api/v1/health"))
    (hge : cfg.calls ≤ (w.filter (fun ts => now - ts < cfg.period)).length) :
    (rateLimitDispatch cfg path w now).1
      = .rejected 429 (rateLimitDetail cfg.calls cfg.period)
    ∧ (rateLimitDispatch cfg path w now).2
      = w.filter (fun ts => now - ts < cfg.period) := by
  constructor <;> simp [rateLimitDispatch, hnp, hge]

/-- C4: with capacity 3 and window 60, on any governed path and any
monotone instants with the first four within 60 seconds of the first
request and a fifth more than 60 seconds after it, the run admits the
first three requests, rejects the fourth with the 429 rate-limit detail,
and admits the fifth again. -/
theorem governor_window_scenario (path : String) (t1 t2 t3 t4 t5 : Int)
    (hp1 : path ≠ "/health") (hp2 : path ≠ "/api/v1/health")
    (h12 : t1 ≤ t2) (h23 : t2 ≤ t3) (h34 : t3 ≤ t4)
    (hwin : t4 - t1 < 60) (h5 : t1 + 60 < t5) :
    ((runGov ⟨3, 60⟩ path [] [t1, t2, t3, t4, t5]).1.map
        GovOutcome.isAdmitted) = [true, true, true, false, true]
    ∧ (runGov ⟨3, 60⟩ path [] [t1, t2, t3, t4, t5]).1.get? 3
      = some (.rejected 429 (rateLimitDetail 3 60)) := by
  have hnp : ¬ (path = "/health" ∨ path = "/api/v1/health") := by
    simp [hp1, hp2]
  have c21 : t2 - t1 < 60 := by omega
  have c31 : t3 - t1 < 60 := by omega
  have c32 : t3 - t2 < 60 := by omega
  have c41 : t4 - t1 < 60 := by omega
  have c42 : t4 - t2 < 60 := by omega
  have c43 : t4 - t3 < 60 := by omega
  have c51 : ¬ (t5 - t1 < 60) := by omega
  have f1 : ([] : List Int).filter (fun ts => t1 - ts < 60) = [] := rfl
  have f2 : ([t1] : List Int).filter (fun ts => t2 - ts < 60) = [t1] := by
    simp [c21]
  have f3 : ([t1, t2] : List Int).filter (fun ts => t3 - ts < 60)
      = [t1, t2] := by simp [c31, c32]
  have f4 : ([t1, t2, t3] : List Int).filter (fun ts => t4 - ts < 60)
      = [t1, t2, t3] := by simp [c41, c42, c43]
  have s1 := dispatch_admits ⟨3, 60⟩ path [] t1 hnp (by rw [f1]; simp)
  have s2 := dispatch_admits ⟨3, 60⟩ path [t1] t2 hnp
    (by rw [show (⟨3, 60⟩ : RateLimitConfig).period = 60 from rfl, f2]
        simp)
  have s3 := dispatch_admits ⟨3, 60⟩ path [t1, t2] t3 hnp
    (by rw [show (⟨3, 60⟩ : RateLimitConfig).period = 60 from rfl, f3]
        simp)
  have s4 := dispatch_rejects ⟨3, 60⟩ path [t1, t2, t3] t4 hnp
    (by rw [show (⟨3, 60⟩ : RateLimitConfig).period = 60 from rfl, f4]
        simp)
  have s5len : (([t1, t2, t3] : List Int).filter
      (fun ts => t5 - ts < 60)).length < 3 := by
    have hstep : (([t1, t2, t3] : List Int).filter
        (fun ts => t5 - ts < 60))
        = ([t2, t3] : List Int).filter (fun ts => t5 - ts < 60) := by
      simp [List.filter, c51]
    have hle := List.length_filter_le
      (fun ts => decide (t5 - ts < 60)) [t2, t3]
    rw [hstep]
    simp only [List.length_cons, List.length_nil] at hle ⊢
    omega
  have s5 := dispatch_admits ⟨3, 60⟩ path [t1, t2, t3] t5 hnp
    (by simpa using s5len)
  have hw1 : (rateLimitDispatch ⟨3, 60⟩ path [] t1).2 = [t1] := by
    rw [s1.2]; simp
  have hw2 : (rateLimitDispatch ⟨3, 60⟩ path [t1] t2).2 = [t1, t2] := by
    rw [s2.2]; simp [c21]
  have hw3 : (rateLimitDispatch ⟨3, 60⟩ path [t1, t2] t3).2
      = [t1, t2, t3] := by
    rw [s3.2]; simp [c31, c32]
  have hw4 : (rateLimitDispatch ⟨3, 60⟩ path [t1, t2, t3] t4).2
      = [t1, t2, t3] := by
    rw [s4.2]; simp [c41, c42, c43]
  constructor
  · simp only [runGov, hw1, hw2, hw3, hw4, List.map]
    rw [s1.1, s2.1, s3.1, s4.1, s5.1]
    simp [GovOutcome.isAdmitted]
  · simp only [runGov, hw1, hw2, hw3, hw4, List.get?]
    rw [s4.1]

/-- Witness for C4 at concrete instants 0, 10, 20, 30 and 61. -/
theorem governor_window_scenario_witness :
    ((runGov ⟨3, 60⟩ "/api/v1/items" [] [0, 10, 20, 30, 61]).1.map
        GovOutcome.isAdmitted) = [true, true, true, false, true]
    ∧ (runGov ⟨3, 60⟩ "/api/v1/items" [] [0, 10, 20, 30, 61]).1.get? 3
      = some (.rejected 429 (rateLimitDetail 3 60)) :=
  governor_window_scenario "/api/v1/items" 0 10 20 30 61 (by decide)
    (by decide) (by decide) (by decide) (by decide) (by decide) (by decide)

/-- C5 counterexample: two rejected governed requests whose windows hold
different oldest timestamps, hence different earliest-expiry instants (60
versus 70), receive byte-identical rejections, so the rejection cannot
report the earliest instant at which the oldest timestamp expires. -/
theorem governor_rejection_lacks_retry_hint_cex :
    (rateLimitDispatch ⟨3, 60⟩ "/api/v1/items" [0, 1, 2] 3).1
      = (rateLimitDispatch ⟨3, 60⟩ "/api/v1/items" [10, 11, 12] 13).1
    ∧ (rateLimitDispatch ⟨3, 60⟩ "/api/v1/items" [0, 1, 2] 3).1
      = .rejected 429 (rateLimitDetail 3 60)
    ∧ ((0 : Int) + 60 ≠ (10 : Int) + 60) := by
  refine ⟨rfl, rfl, by decide⟩

/-- C5 amended: every rejection of a governed request is the 429 response
whose detail string reports exactly the capacity and the window length; it
carries no retry-after hint and does not depend on the stored window. -/
theorem governor_rejection_reports_capacity_and_window
    (cfg : RateLimitConfig) (path : String) (w : List Int) (now : Int)
    (st : Nat) (d : String)
    (h : (rateLimitDispatch cfg path w now).1 = .rejected st d) :
    st = 429 ∧ d = rateLimitDetail cfg.calls cfg.period := by
  unfold rateLimitDispatch at h
  by_cases hb : path = "/health" ∨ path = "/api/v1/health"
  · rw [if_pos hb] at h
    simp at h
  · rw [if_neg hb] at h
    by_cases hc : cfg.calls
        ≤ (w.filter (fun ts => now - ts < cfg.period)).length
    · rw [if_pos hc] at h
      simp only [GovOutcome.rejected.injEq] at h
      exact ⟨h.1.symm, h.2.symm⟩
    · rw [if_neg hc] at h
      simp at h

/-- Witness for the C5 amended theorem at a concrete rejection. -/
theorem governor_rejection_reports_capacity_and_window_witness :
    (429 : Nat) = 429 ∧ rateLimitDetail 3 60 = rateLimitDetail 3 60 :=
  governor_rejection_reports_capacity_and_window ⟨3, 60⟩ "/api/v1/items"
    [0, 1, 2] 3 429 (rateLimitDetail 3 60) rfl

end FastapiStarter
